import Mathlib

/-!
Verification of the Connection Quality Sampler of the PSG_IQ repository.

The development shallowly embeds the two source files:
* `src/unnamed/part_000` — class `NetworkQualityMonitor` (metric extraction
  `analyzeStats`, the 2-second sampler loop `startMonitoring` / `stopMonitoring`
  / `collectAndSendStats`, and the quality reactor `updateNetworkUI` /
  `logNetworkEvent`);
* `src/static/js/main.js` — class `SimpleConfer` (the lifecycle controller:
  `startNetworkMonitoring`, `handleOffer`, `endCall`).

JavaScript numbers are modelled as rationals (`ℚ`) where fractional values
occur (jitter, round-trip time, the computed packet-loss percentage) and as
naturals (`ℕ`) for the packet and byte counters, which are non-negative
integer counts.  `Math.round` is `⌊x + 1/2⌋` (JavaScript rounds halves toward
positive infinity).  A field that may be `undefined` in JavaScript is an
`Option`; a JavaScript `TypeError` is an `Except.error`.
-/

namespace PSGIQ

/-- JavaScript `Math.round`: nearest integer, halves toward `+∞`. -/
def jsRound (q : ℚ) : ℤ := ⌊q + 1/2⌋

/-- The source's `Math.round(x * 10) / 10` idiom: round to 1 decimal place. -/
def round1 (q : ℚ) : ℚ := (jsRound (q * 10) : ℚ) / 10

/-- One report of the `RTCStatsReport` iterated by `analyzeStats`
(`src/unnamed/part_000`, lines 70–102).  Only the fields the source reads are
modelled; a field absent from a given report is `none` (JS `undefined`). -/
structure RTCReport where
  type : String
  mediaType : Option String := none
  state : Option String := none
  packetsLost : Option ℕ := none
  packetsReceived : Option ℕ := none
  jitter : Option ℚ := none
  bytesReceived : Option ℕ := none
  bytesSent : Option ℕ := none
  currentRoundTripTime : Option ℚ := none
  deriving DecidableEq

/-- The record literal returned by `analyzeStats` (lines 104–110). -/
structure Metrics where
  packet_loss : ℚ
  rtt : ℤ
  jitter : ℚ
  bytes_received : ℕ
  bytes_sent : ℕ
  deriving DecidableEq

/-- The five local accumulator variables of `analyzeStats` (lines 64–68),
initialised to 0 and mutated by the `stats.forEach` body. -/
structure Acc where
  packetLoss : ℚ
  rtt : ℚ
  jitter : ℚ
  bytesReceived : ℕ
  bytesSent : ℕ
  deriving DecidableEq

/-- First `if` block of the forEach body (lines 71–87): inbound-rtp video
reports update packet loss (both counters present, positive total), jitter and
bytesReceived, each guarded by `!== undefined` checks. -/
def stepInbound (acc : Acc) (r : RTCReport) : Acc :=
  if r.type = "inbound-rtp" ∧ r.mediaType = some "video" then
    let b1 :=
      match r.packetsLost, r.packetsReceived with
      | some lost, some recv =>
        if recv + lost > 0 then
          { acc with packetLoss := ((lost : ℚ) / ((recv : ℚ) + (lost : ℚ))) * 100 }
        else acc
      | _, _ => acc
    let b2 :=
      match r.jitter with
      | some j => { b1 with jitter := j * 1000 }
      | none => b1
    match r.bytesReceived with
    | some b => { b2 with bytesReceived := b }
    | none => b2
  else acc

/-- Second `if` block (lines 89–94): outbound-rtp video reports update
bytesSent when present. -/
def stepOutbound (acc : Acc) (r : RTCReport) : Acc :=
  if r.type = "outbound-rtp" ∧ r.mediaType = some "video" then
    match r.bytesSent with
    | some b => { acc with bytesSent := b }
    | none => acc
  else acc

/-- Third `if` block (lines 96–101): succeeded candidate pairs update the RTT
accumulator when currentRoundTripTime is present. -/
def stepCandidatePair (acc : Acc) (r : RTCReport) : Acc :=
  if r.type = "candidate-pair" ∧ r.state = some "succeeded" then
    match r.currentRoundTripTime with
    | some t => { acc with rtt := t * 1000 }
    | none => acc
  else acc

/-- The body of `stats.forEach(report => ...)` (lines 70–102): the three
independent `if` blocks applied in source order. -/
def stepReport (acc : Acc) (r : RTCReport) : Acc :=
  stepCandidatePair (stepOutbound (stepInbound acc r) r) r

/-- `NetworkQualityMonitor.analyzeStats` (lines 63–111): fold the forEach body
over the report list, then round: packet loss and jitter to 1 decimal place,
RTT to the nearest integer, byte counters passed through. -/
def analyzeStats (stats : List RTCReport) : Metrics :=
  let acc := stats.foldl stepReport ⟨0, 0, 0, 0, 0⟩
  { packet_loss := round1 acc.packetLoss
    rtt := jsRound acc.rtt
    jitter := round1 acc.jitter
    bytes_received := acc.bytesReceived
    bytes_sent := acc.bytesSent }

/-- A stats snapshot holding one inbound-rtp video report, one outbound-rtp
video report and one succeeded candidate pair, with each optional counter
either present or absent — the canonical shape of a `RawSample`. -/
def mkSample (lost recv : Option ℕ) (jit : Option ℚ) (br bs : Option ℕ)
    (rtt : Option ℚ) : List RTCReport :=
  [ { type := "inbound-rtp", mediaType := some "video", packetsLost := lost,
      packetsReceived := recv, jitter := jit, bytesReceived := br },
    { type := "outbound-rtp", mediaType := some "video", bytesSent := bs },
    { type := "candidate-pair", state := some "succeeded",
      currentRoundTripTime := rtt } ]

theorem stepInbound_packetLoss (acc : Acc) (r : RTCReport) :
    (stepInbound acc r).packetLoss =
      if r.type = "inbound-rtp" ∧ r.mediaType = some "video" then
        match r.packetsLost, r.packetsReceived with
        | some lost, some recv =>
          if 0 < recv + lost then ((lost : ℚ) / ((recv : ℚ) + (lost : ℚ))) * 100
          else acc.packetLoss
        | _, _ => acc.packetLoss
      else acc.packetLoss := by
  rcases r with ⟨ty, mt, st, pl, pr, j, br, bs, rt⟩
  simp only [stepInbound]
  split_ifs <;> rcases pl <;> rcases pr <;> rcases j <;> rcases br <;>
    simp <;> split <;> simp

theorem stepInbound_jitter (acc : Acc) (r : RTCReport) :
    (stepInbound acc r).jitter =
      if r.type = "inbound-rtp" ∧ r.mediaType = some "video" then
        match r.jitter with
        | some j => j * 1000
        | none => acc.jitter
      else acc.jitter := by
  rcases r with ⟨ty, mt, st, pl, pr, j, br, bs, rt⟩
  simp only [stepInbound]
  split_ifs <;> rcases pl <;> rcases pr <;> rcases j <;> rcases br <;>
    simp <;> split <;> simp

theorem stepInbound_bytesReceived (acc : Acc) (r : RTCReport) :
    (stepInbound acc r).bytesReceived =
      if r.type = "inbound-rtp" ∧ r.mediaType = some "video" then
        match r.bytesReceived with
        | some b => b
        | none => acc.bytesReceived
      else acc.bytesReceived := by
  rcases r with ⟨ty, mt, st, pl, pr, j, br, bs, rt⟩
  simp only [stepInbound]
  split_ifs <;> rcases pl <;> rcases pr <;> rcases j <;> rcases br <;>
    simp <;> split <;> simp

theorem stepInbound_bytesSent (acc : Acc) (r : RTCReport) :
    (stepInbound acc r).bytesSent = acc.bytesSent := by
  rcases r with ⟨ty, mt, st, pl, pr, j, br, bs, rt⟩
  simp only [stepInbound]
  split_ifs <;> rcases pl <;> rcases pr <;> rcases j <;> rcases br <;>
    simp <;> split <;> simp

theorem stepInbound_rtt (acc : Acc) (r : RTCReport) :
    (stepInbound acc r).rtt = acc.rtt := by
  rcases r with ⟨ty, mt, st, pl, pr, j, br, bs, rt⟩
  simp only [stepInbound]
  split_ifs <;> rcases pl <;> rcases pr <;> rcases j <;> rcases br <;>
    simp <;> split <;> simp

theorem stepOutbound_bytesSent (acc : Acc) (r : RTCReport) :
    (stepOutbound acc r).bytesSent =
      if r.type = "outbound-rtp" ∧ r.mediaType = some "video" then
        match r.bytesSent with
        | some b => b
        | none => acc.bytesSent
      else acc.bytesSent := by
  rcases r with ⟨ty, mt, st, pl, pr, j, br, bs, rt⟩
  simp only [stepOutbound]
  split_ifs <;> rcases bs <;> simp

theorem stepOutbound_packetLoss (acc : Acc) (r : RTCReport) :
    (stepOutbound acc r).packetLoss = acc.packetLoss := by
  rcases r with ⟨ty, mt, st, pl, pr, j, br, bs, rt⟩
  simp only [stepOutbound]
  split_ifs <;> rcases bs <;> simp

theorem stepOutbound_jitter (acc : Acc) (r : RTCReport) :
    (stepOutbound acc r).jitter = acc.jitter := by
  rcases r with ⟨ty, mt, st, pl, pr, j, br, bs, rt⟩
  simp only [stepOutbound]
  split_ifs <;> rcases bs <;> simp

theorem stepOutbound_bytesReceived (acc : Acc) (r : RTCReport) :
    (stepOutbound acc r).bytesReceived = acc.bytesReceived := by
  rcases r with ⟨ty, mt, st, pl, pr, j, br, bs, rt⟩
  simp only [stepOutbound]
  split_ifs <;> rcases bs <;> simp

theorem stepOutbound_rtt (acc : Acc) (r : RTCReport) :
    (stepOutbound acc r).rtt = acc.rtt := by
  rcases r with ⟨ty, mt, st, pl, pr, j, br, bs, rt⟩
  simp only [stepOutbound]
  split_ifs <;> rcases bs <;> simp

theorem stepCandidatePair_rtt (acc : Acc) (r : RTCReport) :
    (stepCandidatePair acc r).rtt =
      if r.type = "candidate-pair" ∧ r.state = some "succeeded" then
        match r.currentRoundTripTime with
        | some t => t * 1000
        | none => acc.rtt
      else acc.rtt := by
  rcases r with ⟨ty, mt, st, pl, pr, j, br, bs, rt⟩
  simp only [stepCandidatePair]
  split_ifs <;> rcases rt <;> simp

theorem stepCandidatePair_packetLoss (acc : Acc) (r : RTCReport) :
    (stepCandidatePair acc r).packetLoss = acc.packetLoss := by
  rcases r with ⟨ty, mt, st, pl, pr, j, br, bs, rt⟩
  simp only [stepCandidatePair]
  split_ifs <;> rcases rt <;> simp

theorem stepCandidatePair_jitter (acc : Acc) (r : RTCReport) :
    (stepCandidatePair acc r).jitter = acc.jitter := by
  rcases r with ⟨ty, mt, st, pl, pr, j, br, bs, rt⟩
  simp only [stepCandidatePair]
  split_ifs <;> rcases rt <;> simp

theorem stepCandidatePair_bytesReceived (acc : Acc) (r : RTCReport) :
    (stepCandidatePair acc r).bytesReceived = acc.bytesReceived := by
  rcases r with ⟨ty, mt, st, pl, pr, j, br, bs, rt⟩
  simp only [stepCandidatePair]
  split_ifs <;> rcases rt <;> simp

theorem stepCandidatePair_bytesSent (acc : Acc) (r : RTCReport) :
    (stepCandidatePair acc r).bytesSent = acc.bytesSent := by
  rcases r with ⟨ty, mt, st, pl, pr, j, br, bs, rt⟩
  simp only [stepCandidatePair]
  split_ifs <;> rcases rt <;> simp

/-- The forEach body only changes `packetLoss` on an inbound-rtp video report
with both packet counters present and a positive total. -/
theorem stepReport_packetLoss (acc : Acc) (r : RTCReport) :
    (stepReport acc r).packetLoss =
      if r.type = "inbound-rtp" ∧ r.mediaType = some "video" then
        match r.packetsLost, r.packetsReceived with
        | some lost, some recv =>
          if 0 < recv + lost then ((lost : ℚ) / ((recv : ℚ) + (lost : ℚ))) * 100
          else acc.packetLoss
        | _, _ => acc.packetLoss
      else acc.packetLoss := by
  rw [stepReport, stepCandidatePair_packetLoss, stepOutbound_packetLoss,
    stepInbound_packetLoss]

/-- The forEach body only changes `jitter` on an inbound-rtp video report with
a jitter value present. -/
theorem stepReport_jitter (acc : Acc) (r : RTCReport) :
    (stepReport acc r).jitter =
      if r.type = "inbound-rtp" ∧ r.mediaType = some "video" then
        match r.jitter with
        | some j => j * 1000
        | none => acc.jitter
      else acc.jitter := by
  rw [stepReport, stepCandidatePair_jitter, stepOutbound_jitter, stepInbound_jitter]

/-- The forEach body only changes `bytesReceived` on an inbound-rtp video
report with a bytesReceived value present. -/
theorem stepReport_bytesReceived (acc : Acc) (r : RTCReport) :
    (stepReport acc r).bytesReceived =
      if r.type = "inbound-rtp" ∧ r.mediaType = some "video" then
        match r.bytesReceived with
        | some b => b
        | none => acc.bytesReceived
      else acc.bytesReceived := by
  rw [stepReport, stepCandidatePair_bytesReceived, stepOutbound_bytesReceived,
    stepInbound_bytesReceived]

/-- The forEach body only changes `bytesSent` on an outbound-rtp video report
with a bytesSent value present. -/
theorem stepReport_bytesSent (acc : Acc) (r : RTCReport) :
    (stepReport acc r).bytesSent =
      if r.type = "outbound-rtp" ∧ r.mediaType = some "video" then
        match r.bytesSent with
        | some b => b
        | none => acc.bytesSent
      else acc.bytesSent := by
  rw [stepReport, stepCandidatePair_bytesSent, stepOutbound_bytesSent,
    stepInbound_bytesSent]

/-- The forEach body only changes `rtt` on a succeeded candidate-pair report
with a currentRoundTripTime value present. -/
theorem stepReport_rtt (acc : Acc) (r : RTCReport) :
    (stepReport acc r).rtt =
      if r.type = "candidate-pair" ∧ r.state = some "succeeded" then
        match r.currentRoundTripTime with
        | some t => t * 1000
        | none => acc.rtt
      else acc.rtt := by
  rw [stepReport, stepCandidatePair_rtt, stepOutbound_rtt, stepInbound_rtt]

theorem jsRound_zero : jsRound 0 = 0 := by
  norm_num [jsRound, Int.floor_eq_iff]

theorem round1_zero : round1 0 = 0 := by
  norm_num [round1, jsRound, Int.floor_eq_iff]

theorem round1_nonneg {q : ℚ} (h : 0 ≤ q) : 0 ≤ round1 q := by
  unfold round1 jsRound
  have h1 : (0 : ℤ) ≤ ⌊q * 10 + 1/2⌋ := Int.floor_nonneg.mpr (by linarith)
  positivity

theorem round1_le_100 {q : ℚ} (h : q ≤ 100) : round1 q ≤ 100 := by
  unfold round1 jsRound
  have h1 : ⌊q * 10 + 1/2⌋ ≤ ⌊(1000 : ℚ) + 1/2⌋ := Int.floor_le_floor (by linarith)
  have h2 : (⌊(1000 : ℚ) + 1/2⌋ : ℤ) = 1000 := by norm_num [Int.floor_eq_iff]
  rw [h2] at h1
  have h3 : ((⌊q * 10 + 1/2⌋ : ℤ) : ℚ) ≤ 1000 := by exact_mod_cast h1
  linarith

/-- Closed-form evaluation of the extractor on the canonical one-report-per-kind
snapshot, for every combination of present and absent counters. -/
theorem analyzeStats_mkSample (lost recv : Option ℕ) (jit : Option ℚ)
    (br bs : Option ℕ) (rtt : Option ℚ) :
    analyzeStats (mkSample lost recv jit br bs rtt) =
      { packet_loss := round1 (match lost, recv with
          | some l, some rv => if 0 < rv + l then ((l : ℚ) / ((rv : ℚ) + (l : ℚ))) * 100 else 0
          | _, _ => 0)
        rtt := jsRound (match rtt with | some t => t * 1000 | none => 0)
        jitter := round1 (match jit with | some j => j * 1000 | none => 0)
        bytes_received := (match br with | some b => b | none => 0)
        bytes_sent := (match bs with | some b => b | none => 0) } := by
  unfold analyzeStats mkSample
  simp only [List.foldl_cons, List.foldl_nil, Metrics.mk.injEq]
  refine ⟨?_, ?_, ?_, ?_, ?_⟩
  · congr 1
    rw [stepReport_packetLoss, stepReport_packetLoss, stepReport_packetLoss]
    simp only []
    rw [if_neg (by simp), if_neg (by simp), if_pos (by simp)]
  · congr 1
    rw [stepReport_rtt, stepReport_rtt, stepReport_rtt]
    simp only []
    rw [if_pos (by simp), if_neg (by simp), if_neg (by simp)]
  · congr 1
    rw [stepReport_jitter, stepReport_jitter, stepReport_jitter]
    simp only []
    rw [if_neg (by simp), if_neg (by simp), if_pos (by simp)]
  · rw [stepReport_bytesReceived, stepReport_bytesReceived, stepReport_bytesReceived]
    simp only []
    rw [if_neg (by simp), if_neg (by simp), if_pos (by simp)]
  · rw [stepReport_bytesSent, stepReport_bytesSent, stepReport_bytesSent]
    simp only []
    rw [if_neg (by simp), if_pos (by simp)]
    rcases bs <;> rfl

theorem stepReport_packetLoss_bounds (acc : Acc) (r : RTCReport)
    (h0 : 0 ≤ acc.packetLoss) (h1 : acc.packetLoss ≤ 100) :
    0 ≤ (stepReport acc r).packetLoss ∧ (stepReport acc r).packetLoss ≤ 100 := by
  rw [stepReport_packetLoss]
  split
  · rcases hpl : r.packetsLost with _ | l <;> rcases hpr : r.packetsReceived with _ | rv
    · exact ⟨h0, h1⟩
    · exact ⟨h0, h1⟩
    · exact ⟨h0, h1⟩
    · dsimp only
      split
      · next hpos =>
        have hd : (0 : ℚ) < (rv : ℚ) + (l : ℚ) := by exact_mod_cast hpos
        have hl0 : (0 : ℚ) ≤ (l : ℚ) := Nat.cast_nonneg l
        have hr0 : (0 : ℚ) ≤ (rv : ℚ) := Nat.cast_nonneg rv
        have hle : (l : ℚ) / ((rv : ℚ) + (l : ℚ)) ≤ 1 := by
          rw [div_le_one hd]; linarith
        constructor
        · positivity
        · nlinarith
      · exact ⟨h0, h1⟩
  · exact ⟨h0, h1⟩

theorem foldl_packetLoss_bounds (stats : List RTCReport) :
    ∀ acc : Acc, 0 ≤ acc.packetLoss → acc.packetLoss ≤ 100 →
      0 ≤ (stats.foldl stepReport acc).packetLoss ∧
        (stats.foldl stepReport acc).packetLoss ≤ 100 := by
  induction stats with
  | nil => exact fun acc h0 h1 => ⟨h0, h1⟩
  | cons r rs ih =>
    intro acc h0 h1
    simp only [List.foldl_cons]
    obtain ⟨g0, g1⟩ := stepReport_packetLoss_bounds acc r h0 h1
    exact ih _ g0 g1

theorem foldl_packetLoss_absent (stats : List RTCReport)
    (h : ∀ r ∈ stats, r.type = "inbound-rtp" → r.mediaType = some "video" →
        r.packetsLost = none ∨ r.packetsReceived = none) :
    ∀ acc : Acc, (stats.foldl stepReport acc).packetLoss = acc.packetLoss := by
  induction stats with
  | nil => intro acc; rfl
  | cons r rs ih =>
    intro acc
    simp only [List.foldl_cons]
    rw [ih (fun r' hr' => h r' (List.mem_cons_of_mem _ hr'))]
    rw [stepReport_packetLoss]
    split
    · next hc =>
      rcases h r (List.mem_cons_self r rs) hc.1 hc.2 with h1 | h1 <;>
        rcases hpl : r.packetsLost with _ | l <;>
        rcases hpr : r.packetsReceived with _ | rv <;> simp_all
    · rfl

theorem foldl_jitter_absent (stats : List RTCReport)
    (h : ∀ r ∈ stats, r.type = "inbound-rtp" → r.mediaType = some "video" →
        r.jitter = none) :
    ∀ acc : Acc, (stats.foldl stepReport acc).jitter = acc.jitter := by
  induction stats with
  | nil => intro acc; rfl
  | cons r rs ih =>
    intro acc
    simp only [List.foldl_cons]
    rw [ih (fun r' hr' => h r' (List.mem_cons_of_mem _ hr'))]
    rw [stepReport_jitter]
    split
    · next hc =>
      have h1 := h r (List.mem_cons_self r rs) hc.1 hc.2
      rw [h1]
    · rfl

theorem foldl_bytesReceived_absent (stats : List RTCReport)
    (h : ∀ r ∈ stats, r.type = "inbound-rtp" → r.mediaType = some "video" →
        r.bytesReceived = none) :
    ∀ acc : Acc, (stats.foldl stepReport acc).bytesReceived = acc.bytesReceived := by
  induction stats with
  | nil => intro acc; rfl
  | cons r rs ih =>
    intro acc
    simp only [List.foldl_cons]
    rw [ih (fun r' hr' => h r' (List.mem_cons_of_mem _ hr'))]
    rw [stepReport_bytesReceived]
    split
    · next hc =>
      have h1 := h r (List.mem_cons_self r rs) hc.1 hc.2
      rw [h1]
    · rfl

theorem foldl_bytesSent_absent (stats : List RTCReport)
    (h : ∀ r ∈ stats, r.type = "outbound-rtp" → r.mediaType = some "video" →
        r.bytesSent = none) :
    ∀ acc : Acc, (stats.foldl stepReport acc).bytesSent = acc.bytesSent := by
  induction stats with
  | nil => intro acc; rfl
  | cons r rs ih =>
    intro acc
    simp only [List.foldl_cons]
    rw [ih (fun r' hr' => h r' (List.mem_cons_of_mem _ hr'))]
    rw [stepReport_bytesSent]
    split
    · next hc =>
      have h1 := h r (List.mem_cons_self r rs) hc.1 hc.2
      rw [h1]
    · rfl

theorem foldl_rtt_absent (stats : List RTCReport)
    (h : ∀ r ∈ stats, r.type = "candidate-pair" → r.state = some "succeeded" →
        r.currentRoundTripTime = none) :
    ∀ acc : Acc, (stats.foldl stepReport acc).rtt = acc.rtt := by
  induction stats with
  | nil => intro acc; rfl
  | cons r rs ih =>
    intro acc
    simp only [List.foldl_cons]
    rw [ih (fun r' hr' => h r' (List.mem_cons_of_mem _ hr'))]
    rw [stepReport_rtt]
    split
    · next hc =>
      have h1 := h r (List.mem_cons_self r rs) hc.1 hc.2
      rw [h1]
    · rfl

/-- C3: for every RawSample the extractor computes packet loss as
lost/(lost+received)*100 rounded to 1 decimal place when both packet counters
are present with a positive sum, and 0 otherwise; the result always lies in
[0,100] and is an integer multiple of 1/10; lost=5 with received=95 yields
exactly 5.0. -/
theorem extractor_packet_loss_correct :
    (∀ stats : List RTCReport,
        0 ≤ (analyzeStats stats).packet_loss ∧
        (analyzeStats stats).packet_loss ≤ 100 ∧
        ∃ k : ℤ, (analyzeStats stats).packet_loss = (k : ℚ) / 10) ∧
    (∀ lost recv : Option ℕ, ∀ jit : Option ℚ, ∀ br bs : Option ℕ, ∀ rtt : Option ℚ,
        (analyzeStats (mkSample lost recv jit br bs rtt)).packet_loss =
          match lost, recv with
          | some l, some rv =>
            if 0 < l + rv then round1 (((l : ℚ) / ((l : ℚ) + (rv : ℚ))) * 100) else 0
          | _, _ => 0) ∧
    (analyzeStats (mkSample (some 5) (some 95) none none none none)).packet_loss = 5 := by
  refine ⟨?_, ?_, ?_⟩
  · intro stats
    have hb := foldl_packetLoss_bounds stats ⟨0, 0, 0, 0, 0⟩ le_rfl (by norm_num)
    exact ⟨round1_nonneg hb.1, round1_le_100 hb.2,
      ⟨jsRound ((stats.foldl stepReport ⟨0, 0, 0, 0, 0⟩).packetLoss * 10), rfl⟩⟩
  · intro lost recv jit br bs rtt
    rw [analyzeStats_mkSample]
    dsimp only
    rcases lost with _ | l <;> rcases recv with _ | rv
    · exact round1_zero
    · exact round1_zero
    · exact round1_zero
    · dsimp only
      rw [Nat.add_comm rv l, add_comm (rv : ℚ) (l : ℚ)]
      split_ifs
      · rfl
      · exact round1_zero
  · rw [analyzeStats_mkSample]
    norm_num [round1, jsRound, Int.floor_eq_iff]

/-- C4: the extractor is a total function (the Lean embedding is a plain
`def`, mirroring that every field access in `analyzeStats` is guarded by an
`undefined` check, so no code path throws) with no side effects, and each
derived field is 0 whenever every report that could supply it lacks the
source counter. -/
theorem extractor_total_defaults :
    ∀ stats : List RTCReport,
      ((∀ r ∈ stats, r.type = "inbound-rtp" → r.mediaType = some "video" →
          r.packetsLost = none ∨ r.packetsReceived = none) →
        (analyzeStats stats).packet_loss = 0) ∧
      ((∀ r ∈ stats, r.type = "inbound-rtp" → r.mediaType = some "video" →
          r.jitter = none) →
        (analyzeStats stats).jitter = 0) ∧
      ((∀ r ∈ stats, r.type = "inbound-rtp" → r.mediaType = some "video" →
          r.bytesReceived = none) →
        (analyzeStats stats).bytes_received = 0) ∧
      ((∀ r ∈ stats, r.type = "outbound-rtp" → r.mediaType = some "video" →
          r.bytesSent = none) →
        (analyzeStats stats).bytes_sent = 0) ∧
      ((∀ r ∈ stats, r.type = "candidate-pair" → r.state = some "succeeded" →
          r.currentRoundTripTime = none) →
        (analyzeStats stats).rtt = 0) := by
  intro stats
  refine ⟨fun h => ?_, fun h => ?_, fun h => ?_, fun h => ?_, fun h => ?_⟩
  · show round1 (stats.foldl stepReport ⟨0, 0, 0, 0, 0⟩).packetLoss = 0
    rw [foldl_packetLoss_absent stats h]
    exact round1_zero
  · show round1 (stats.foldl stepReport ⟨0, 0, 0, 0, 0⟩).jitter = 0
    rw [foldl_jitter_absent stats h]
    exact round1_zero
  · show (stats.foldl stepReport ⟨0, 0, 0, 0, 0⟩).bytesReceived = 0
    rw [foldl_bytesReceived_absent stats h]
  · show (stats.foldl stepReport ⟨0, 0, 0, 0, 0⟩).bytesSent = 0
    rw [foldl_bytesSent_absent stats h]
  · show jsRound (stats.foldl stepReport ⟨0, 0, 0, 0, 0⟩).rtt = 0
    rw [foldl_rtt_absent stats h]
    exact jsRound_zero

/-- Witness for C4: on the snapshot whose optional counters are all absent,
every derived field of the extractor's result is 0. -/
theorem extractor_total_defaults_witness :
    (analyzeStats (mkSample none none none none none none)).packet_loss = 0 ∧
    (analyzeStats (mkSample none none none none none none)).jitter = 0 ∧
    (analyzeStats (mkSample none none none none none none)).bytes_received = 0 ∧
    (analyzeStats (mkSample none none none none none none)).bytes_sent = 0 ∧
    (analyzeStats (mkSample none none none none none none)).rtt = 0 := by
  have h := extractor_total_defaults (mkSample none none none none none none)
  refine ⟨h.1 ?_, h.2.1 ?_, h.2.2.1 ?_, h.2.2.2.1 ?_, h.2.2.2.2 ?_⟩ <;>
    · rintro r hr - -
      simp only [mkSample, List.mem_cons, List.not_mem_nil, or_false] at hr
      rcases hr with rfl | rfl | rfl <;> simp

/-- C5: the extractor converts round-trip time from seconds to milliseconds
rounded to the nearest integer (0.123 s gives 123 ms) and jitter from seconds
to milliseconds rounded to 1 decimal place (0.0456 s gives 45.6 ms); each is
0 when its source counter is absent. -/
theorem extractor_rtt_jitter_conversion :
    (∀ lost recv : Option ℕ, ∀ jit : Option ℚ, ∀ br bs : Option ℕ, ∀ rtt : Option ℚ,
        (analyzeStats (mkSample lost recv jit br bs rtt)).rtt =
          (match rtt with
           | some q => jsRound (q * 1000)
           | none => 0) ∧
        (analyzeStats (mkSample lost recv jit br bs rtt)).jitter =
          (match jit with
           | some q => round1 (q * 1000)
           | none => 0)) ∧
    (analyzeStats (mkSample none none (some (456/10000)) none none (some (123/1000)))).rtt
      = 123 ∧
    (analyzeStats (mkSample none none (some (456/10000)) none none (some (123/1000)))).jitter
      = 456/10 := by
  refine ⟨?_, ?_, ?_⟩
  · intro lost recv jit br bs rtt
    rw [analyzeStats_mkSample]
    constructor
    · rcases rtt with _ | q
      · exact jsRound_zero
      · rfl
    · rcases jit with _ | q
      · exact round1_zero
      · rfl
  · rw [analyzeStats_mkSample]
    norm_num [jsRound, Int.floor_eq_iff]
  · rw [analyzeStats_mkSample]
    norm_num [round1, jsRound, Int.floor_eq_iff]

/-!
The Quality Reactor: the `quality_update` socket handler (lines 15–18) calls
`updateNetworkUI` (lines 113–155) and then `logNetworkEvent` (lines 157–172).
DOM text is a list of characters; JavaScript `text.split('\n')` is `splitNl`
and `array.join('\n')` is `joinNl`.
-/

/-- JavaScript `String.prototype.split` with separator `'\n'`: the empty
string splits to `[""]`, and a trailing newline yields a trailing empty
segment. -/
def splitNl : List Char → List (List Char)
  | [] => [[]]
  | c :: cs =>
    if c = '\n' then [] :: splitNl cs
    else
      match splitNl cs with
      | [] => [[c]]
      | l :: ls => (c :: l) :: ls

/-- JavaScript `Array.prototype.join` with separator `'\n'`. -/
def joinNl : List (List Char) → List Char
  | [] => []
  | [l] => l
  | l :: ls => l ++ '\n' :: joinNl ls

/-- The log-text update of `logNetworkEvent` (lines 164–171): append the
entry (`entry` is the rendered line without its terminating newline; the
source's `logEntry` ends in `'\n'`, appended here explicitly), split on
newlines, and when more than 50 segments result keep only the last 50
(`lines.slice(-50).join('\n')`). -/
def logStep (entry : List Char) (text : List Char) : List Char :=
  let t := text ++ entry ++ ['\n']
  let lines := splitNl t
  if 50 < lines.length then joinNl (lines.drop (lines.length - 50)) else t

/-- Fifty-one pairwise distinct one-line log entries: the decimal digits of
1 through 51. -/
def logEntries51 : List (List Char) :=
  (List.range 51).map (fun i => Nat.toDigits 10 (i + 1))

set_option maxRecDepth 10000 in
/-- C1, evaluated at the failing input: after 51 sequential events on an
initially empty log, the rendered log holds the trailing empty segment of the
final newline plus only the 49 most recent formatted lines (events 3–51,
oldest first) — not the 50 most recent lines the claim (and the source's own
comment `Keep only last 50 lines`) state.  The trailing `'\n'` of each
appended entry makes `split('\n')` produce an extra empty segment, so the
`slice(-50)` keeps 49 content lines plus that empty segment. -/
theorem log_truncation_keeps_49_of_51 :
    (splitNl (logEntries51.foldl (fun t e => logStep e t) [])).dropLast
        = logEntries51.drop 2 ∧
    (splitNl (logEntries51.foldl (fun t e => logStep e t) [])).dropLast.length = 49 ∧
    (splitNl (logEntries51.foldl (fun t e => logStep e t) [])).getLast? = some [] ∧
    (splitNl (logEntries51.foldl (fun t e => logStep e t) [])).dropLast
        ≠ logEntries51.drop 1 := by
  decide

/-- The SamplerState of a `NetworkQualityMonitor` (constructor lines 6–7)
plus the ghost count of live interval timers. -/
structure SamplerState where
  isMonitoring : Bool
  monitoringInterval : Option ℕ
  activeTimers : ℕ
  deriving DecidableEq

/-- Constructor state (lines 6–7): not monitoring, no interval handle. -/
def samplerInit : SamplerState :=
  { isMonitoring := false, monitoringInterval := none, activeTimers := 0 }

/-- `startMonitoring` (lines 21–33): return immediately when already
monitoring; otherwise set the flag and store the handle of the freshly
created interval timer. -/
def startMonitoring (s : SamplerState) (newHandle : ℕ) : SamplerState :=
  if s.isMonitoring then s
  else
    { isMonitoring := true, monitoringInterval := some newHandle,
      activeTimers := s.activeTimers + 1 }

/-- `stopMonitoring` (lines 35–44): return immediately when not monitoring;
otherwise clear the flag and, when a handle is stored, cancel the timer and
drop the handle. -/
def stopMonitoring (s : SamplerState) : SamplerState :=
  if !s.isMonitoring then s
  else
    let s1 := { s with isMonitoring := false }
    match s1.monitoringInterval with
    | some _ =>
      { s1 with monitoringInterval := none, activeTimers := s1.activeTimers - 1 }
    | none => s1

/-- A call to `startMonitoring` (with the handle `setInterval` would return)
or to `stopMonitoring`. -/
inductive SamplerOp where
  | start (handle : ℕ)
  | stop
  deriving DecidableEq

/-- Run a sequence of start/stop calls on a sampler state. -/
def runSampler (s : SamplerState) (ops : List SamplerOp) : SamplerState :=
  ops.foldl
    (fun s op =>
      match op with
      | SamplerOp.start h => startMonitoring s h
      | SamplerOp.stop => stopMonitoring s)
    s

/-- The SamplerState invariant: the flag and the handle agree, and exactly
one timer is live when the handle is present. -/
def SamplerInv (s : SamplerState) : Prop :=
  (s.isMonitoring = true ↔ s.monitoringInterval.isSome) ∧
  s.activeTimers = (if s.monitoringInterval.isSome then 1 else 0)

theorem samplerInv_start (s : SamplerState) (h : ℕ) (hs : SamplerInv s) :
    SamplerInv (startMonitoring s h) := by
  unfold startMonitoring
  split
  · exact hs
  · next hmon =>
    have hfalse : s.isMonitoring = false := by
      revert hmon; cases s.isMonitoring <;> simp
    have hnone : s.monitoringInterval.isSome = false := by
      rcases hI : s.monitoringInterval with _ | v
      · rfl
      · have := hs.1.mpr (by rw [hI]; rfl)
        rw [this] at hfalse; cases hfalse
    have ht : s.activeTimers = 0 := by rw [hs.2, hnone]; rfl
    exact ⟨by simp, by simp [ht]⟩

theorem samplerInv_stop (s : SamplerState) (hs : SamplerInv s) :
    SamplerInv (stopMonitoring s) := by
  unfold stopMonitoring
  split
  · exact hs
  · next hmon =>
    have htrue : s.isMonitoring = true := by
      revert hmon; cases s.isMonitoring <;> simp
    have hsome : s.monitoringInterval.isSome = true := hs.1.mp htrue
    rcases hI : s.monitoringInterval with _ | v
    · rw [hI] at hsome; cases hsome
    · have ht : s.activeTimers = 1 := by rw [hs.2, hI]; rfl
      simp only [hI]
      exact ⟨by simp, by simp [ht]⟩

theorem runSampler_inv (ops : List SamplerOp) :
    ∀ s : SamplerState, SamplerInv s → SamplerInv (runSampler s ops) := by
  induction ops with
  | nil => exact fun s hs => hs
  | cons op rest ih =>
    intro s hs
    rcases op with h | _
    · exact ih _ (samplerInv_start s h hs)
    · exact ih _ (samplerInv_stop s hs)

/-- C6: start and stop are idempotent no-ops in their target states, and
after every sequence of operations from the constructor state the invariant
holds — `isMonitoring` is true iff an interval handle is present — with at
most one live timer per instance. -/
theorem sampler_idempotent_and_invariant :
    (∀ ops : List SamplerOp, SamplerInv (runSampler samplerInit ops)) ∧
    (∀ ops : List SamplerOp, (runSampler samplerInit ops).activeTimers ≤ 1) ∧
    (∀ s : SamplerState, ∀ h : ℕ, s.isMonitoring = true → startMonitoring s h = s) ∧
    (∀ s : SamplerState, s.isMonitoring = false → stopMonitoring s = s) := by
  have hinv : ∀ ops, SamplerInv (runSampler samplerInit ops) := fun ops =>
    runSampler_inv ops samplerInit ⟨by simp [samplerInit], by simp [samplerInit]⟩
  refine ⟨hinv, fun ops => ?_, fun s h hs => ?_, fun s hs => ?_⟩
  · rw [(hinv ops).2]
    split <;> simp
  · unfold startMonitoring
    rw [if_pos hs]
  · unfold stopMonitoring
    rw [if_pos (by rw [hs]; rfl)]

/-- Witness for C6: the invariant after a concrete start-stop sequence, and
the two no-ops at concrete states in their target states. -/
theorem sampler_idempotent_and_invariant_witness :
    SamplerInv (runSampler samplerInit [SamplerOp.start 5, SamplerOp.stop]) ∧
    (runSampler samplerInit [SamplerOp.start 5, SamplerOp.stop]).activeTimers ≤ 1 ∧
    startMonitoring { isMonitoring := true, monitoringInterval := some 3, activeTimers := 1 } 7
      = { isMonitoring := true, monitoringInterval := some 3, activeTimers := 1 } ∧
    stopMonitoring samplerInit = samplerInit :=
  ⟨sampler_idempotent_and_invariant.1 [SamplerOp.start 5, SamplerOp.stop],
   sampler_idempotent_and_invariant.2.1 [SamplerOp.start 5, SamplerOp.stop],
   sampler_idempotent_and_invariant.2.2.1 _ 7 rfl,
   sampler_idempotent_and_invariant.2.2.2 samplerInit rfl⟩

/-!
The timer tick: the `setInterval` callback of `startMonitoring` (lines 28–32)
and `collectAndSendStats` (lines 46–61).
-/

/-- A `network_stats` message emitted on the socket (lines 53–56): the
analyzed metrics tagged with `getCurrentRoom()`. -/
structure NetMsg where
  room : String
  metrics : Metrics
  deriving DecidableEq

/-- The environment of one timer tick: whether `this.peerConnection` is
non-null, its `connectionState`, the outcome of `getStats()` (a report list
or a thrown/rejected error), the outcome of `socket.emit` (success or a
thrown error), and the value of `getCurrentRoom()` at the tick. -/
structure TickInput where
  hasPeerConnection : Bool
  connectionState : String
  statsResult : Except String (List RTCReport)
  emitResult : Except String Unit
  room : String

/-- `collectAndSendStats` (lines 46–61): fetch stats, analyze, and emit the
metrics tagged with the current room; any error thrown while fetching or
emitting is caught by the `try`/`catch` and appended to the console error
log.  Returns the pair (messages actually emitted, console errors): the
function is total — no error escapes.  The source's `if (networkMetrics)`
guard is always taken, since `analyzeStats` always returns an object. -/
def collectAndSendStats (t : TickInput) : List NetMsg × List String :=
  match t.statsResult with
  | Except.error e => ([], ["Error collecting network stats: " ++ e])
  | Except.ok stats =>
    match t.emitResult with
    | Except.ok _ => ([{ room := t.room, metrics := analyzeStats stats }], [])
    | Except.error e => ([], ["Error collecting network stats: " ++ e])

/-- The `setInterval` callback (lines 28–32): run `collectAndSendStats` iff
the peer connection exists and reports `connected`; an inactive tick does
nothing.  The sampler state is passed through untouched, as the callback
never writes `isMonitoring` or `monitoringInterval`. -/
def monitorTick (s : SamplerState) (t : TickInput) :
    SamplerState × List NetMsg × List String :=
  if t.hasPeerConnection = true ∧ t.connectionState = "connected" then
    (s, collectAndSendStats t)
  else (s, [], [])

/-- Consecutive timer ticks: thread the sampler state and concatenate the
emitted messages and console errors in order. -/
def runTicks (s : SamplerState) : List TickInput → SamplerState × List NetMsg × List String
  | [] => (s, [], [])
  | t :: rest =>
    let r1 := monitorTick s t
    let r2 := runTicks r1.1 rest
    (r2.1, r1.2.1 ++ r2.2.1, r1.2.2 ++ r2.2.2)

theorem monitorTick_fst (s : SamplerState) (t : TickInput) :
    (monitorTick s t).1 = s := by
  unfold monitorTick
  split <;> rfl

theorem runTicks_fst (ts : List TickInput) :
    ∀ s : SamplerState, (runTicks s ts).1 = s := by
  induction ts with
  | nil => intro s; rfl
  | cons t rest ih =>
    intro s
    show (runTicks (monitorTick s t).1 rest).1 = s
    rw [ih, monitorTick_fst]

theorem runTicks_cons (s : SamplerState) (t : TickInput) (rest : List TickInput) :
    runTicks s (t :: rest)
      = ((runTicks s rest).1,
         (monitorTick s t).2.1 ++ (runTicks s rest).2.1,
         (monitorTick s t).2.2 ++ (runTicks s rest).2.2) := by
  show (_, _, _) = _
  rw [monitorTick_fst, runTicks_fst]

theorem runTicks_append (as bs : List TickInput) :
    ∀ s : SamplerState,
      (runTicks s (as ++ bs)).2.1 = (runTicks s as).2.1 ++ (runTicks s bs).2.1 := by
  induction as with
  | nil => intro s; rfl
  | cons t rest ih =>
    intro s
    rw [List.cons_append, runTicks_cons, runTicks_cons]
    simp only
    rw [ih, List.append_assoc]

/-- C7: on a tick with a successful fetch and send, the metrics extracted
from the fetched RawSample are pushed to the report channel tagged with the
tick's current room iff the peer connection exists and reports "connected";
no message is ever emitted on an inactive tick; and a skipped tick leaves no
trace — removing an inactive tick from a sequence leaves the emitted message
stream unchanged (nothing is buffered or retried). -/
theorem tick_emits_iff_connected :
    (∀ t : TickInput, ∀ sample : List RTCReport, ∀ s : SamplerState,
        t.statsResult = Except.ok sample → t.emitResult = Except.ok () →
        ((monitorTick s t).2.1 = [{ room := t.room, metrics := analyzeStats sample }] ↔
          (t.hasPeerConnection = true ∧ t.connectionState = "connected"))) ∧
    (∀ t : TickInput, ∀ s : SamplerState,
        ¬(t.hasPeerConnection = true ∧ t.connectionState = "connected") →
        (monitorTick s t).2.1 = []) ∧
    (∀ s : SamplerState, ∀ pre post : List TickInput, ∀ t : TickInput,
        ¬(t.hasPeerConnection = true ∧ t.connectionState = "connected") →
        (runTicks s (pre ++ t :: post)).2.1 = (runTicks s (pre ++ post)).2.1) := by
  have hskip : ∀ t s, ¬(t.hasPeerConnection = true ∧ t.connectionState = "connected") →
      (monitorTick s t).2.1 = [] := by
    intro t s h
    unfold monitorTick
    rw [if_neg h]
  refine ⟨?_, hskip, ?_⟩
  · intro t sample s hstats hemit
    constructor
    · intro hmsg
      by_contra hact
      rw [hskip t s hact] at hmsg
      cases hmsg
    · intro hact
      unfold monitorTick collectAndSendStats
      rw [if_pos hact, hstats, hemit]
  · intro s pre post t h
    rw [runTicks_append, runTicks_append, runTicks_cons]
    simp only
    rw [hskip t _ h, List.nil_append]

/-- Witness for C7: a concrete connected tick with a successful fetch and
send emits exactly its metrics message, and a concrete disconnected tick in
the middle of a sequence leaves the message stream unchanged. -/
theorem tick_emits_iff_connected_witness :
    (monitorTick samplerInit
        { hasPeerConnection := true, connectionState := "connected",
          statsResult := Except.ok (mkSample none none none none none none),
          emitResult := Except.ok (), room := "default" }).2.1
      = [{ room := "default",
           metrics := analyzeStats (mkSample none none none none none none) }] ∧
    (runTicks samplerInit
        ([] ++ { hasPeerConnection := false, connectionState := "new",
                 statsResult := Except.ok [], emitResult := Except.ok (),
                 room := "default" } :: [])).2.1
      = (runTicks samplerInit ([] ++ [])).2.1 :=
  ⟨(tick_emits_iff_connected.1 _ (mkSample none none none none none none)
      samplerInit rfl rfl).mpr ⟨rfl, rfl⟩,
   tick_emits_iff_connected.2.2 samplerInit [] []
     { hasPeerConnection := false, connectionState := "new",
       statsResult := Except.ok [], emitResult := Except.ok (), room := "default" }
     (by simp)⟩

/-- C8: a tick whose stats fetch or send throws is caught by the
`try`/`catch`: the tick returns normally with the error only appended to the
console log and no message emitted, the sampler state (in particular
`isMonitoring` and the interval handle) is unchanged by every tick, and the
surrounding ticks of a sequence still emit their messages — the loop samples
again on the next period. -/
theorem tick_errors_caught :
    (∀ s : SamplerState, ∀ t : TickInput, (monitorTick s t).1 = s) ∧
    (∀ s : SamplerState, ∀ t : TickInput, ∀ e : String,
        t.statsResult = Except.error e →
        t.hasPeerConnection = true → t.connectionState = "connected" →
        (monitorTick s t).2 = ([], ["Error collecting network stats: " ++ e])) ∧
    (∀ s : SamplerState, ∀ t : TickInput, ∀ sample : List RTCReport, ∀ e : String,
        t.statsResult = Except.ok sample → t.emitResult = Except.error e →
        t.hasPeerConnection = true → t.connectionState = "connected" →
        (monitorTick s t).2 = ([], ["Error collecting network stats: " ++ e])) ∧
    (∀ s : SamplerState, ∀ pre post : List TickInput, ∀ t : TickInput,
        (runTicks s (pre ++ t :: post)).2.1
          = (runTicks s pre).2.1 ++ (monitorTick s t).2.1 ++ (runTicks s post).2.1) := by
  refine ⟨monitorTick_fst, ?_, ?_, ?_⟩
  · intro s t e hstats hpc hconn
    unfold monitorTick collectAndSendStats
    rw [if_pos ⟨hpc, hconn⟩, hstats]
  · intro s t sample e hstats hemit hpc hconn
    unfold monitorTick collectAndSendStats
    rw [if_pos ⟨hpc, hconn⟩, hstats, hemit]
  · intro s pre post t
    rw [runTicks_append, runTicks_cons]
    simp only
    rw [List.append_assoc]

/-- Witness for C8: a concrete connected tick whose fetch fails emits
nothing and logs the error, and its neighbours in a concrete sequence still
emit. -/
theorem tick_errors_caught_witness :
    (monitorTick samplerInit
        { hasPeerConnection := true, connectionState := "connected",
          statsResult := Except.error "getStats failed", emitResult := Except.ok (),
          room := "default" }).2
      = ([], ["Error collecting network stats: " ++ "getStats failed"]) ∧
    (runTicks samplerInit
        ([] ++ { hasPeerConnection := true, connectionState := "connected",
                 statsResult := Except.error "getStats failed",
                 emitResult := Except.ok (), room := "default" } :: [])).2.1
      = (runTicks samplerInit []).2.1
          ++ (monitorTick samplerInit
                { hasPeerConnection := true, connectionState := "connected",
                  statsResult := Except.error "getStats failed",
                  emitResult := Except.ok (), room := "default" }).2.1
          ++ (runTicks samplerInit []).2.1 :=
  ⟨tick_errors_caught.2.1 samplerInit _ "getStats failed" rfl rfl rfl,
   tick_errors_caught.2.2.2 samplerInit [] [] _⟩

/-!
The Lifecycle Controller: `SimpleConfer` in `src/static/js/main.js` —
`startNetworkMonitoring` (lines 194–200), `handleOffer` (lines 202–222),
`startCall` (lines 110–144), `endCall` (lines 243–266).  Peer connections
and monitor instances carry ghost serial numbers so that freshness (no reuse
after stop) is expressible; `live` is the ghost list of monitor instances
constructed and not yet stopped, and `stopped` the ghost list of ids of
stopped instances.
-/

/-- One `NetworkQualityMonitor` instance as held by `SimpleConfer`: its
creation serial number, the serial number of the peer connection handed to
its constructor, and its monitoring flag. -/
structure MonitorInst where
  id : ℕ
  pcId : ℕ
  running : Bool
  deriving DecidableEq

/-- The fields of `SimpleConfer` relevant to the monitor lifecycle
(`this.peerConnection`, `this.networkMonitor`), plus ghost bookkeeping. -/
structure ConferState where
  peerConnection : Option ℕ
  networkMonitor : Option MonitorInst
  nextPcId : ℕ
  nextMonId : ℕ
  live : List MonitorInst
  stopped : List ℕ
  deriving DecidableEq

/-- The constructor state of `SimpleConfer` (lines 3–14): no connection, no
monitor. -/
def conferInit : ConferState :=
  { peerConnection := none, networkMonitor := none, nextPcId := 0,
    nextMonId := 0, live := [], stopped := [] }

/-- `startNetworkMonitoring` (lines 194–200): when no monitor exists and a
peer connection does, construct a new `NetworkQualityMonitor` on the current
connection and start it; otherwise do nothing. -/
def startNetworkMonitoring (s : ConferState) : ConferState :=
  match s.networkMonitor, s.peerConnection with
  | none, some pc =>
    let m : MonitorInst := { id := s.nextMonId, pcId := pc, running := true }
    { s with networkMonitor := some m, nextMonId := s.nextMonId + 1,
             live := m :: s.live }
  | _, _ => s

/-- `createPeerConnection` (lines 146–192): `this.peerConnection` is
overwritten with a newly constructed `RTCPeerConnection`. -/
def createPeerConnection (s : ConferState) : ConferState :=
  { s with peerConnection := some s.nextPcId, nextPcId := s.nextPcId + 1 }

/-- `startCall` (lines 110–144), the calling side: create the peer
connection, then start network monitoring (the offer signaling that follows
does not touch the monitor). -/
def startCall (s : ConferState) : ConferState :=
  startNetworkMonitoring (createPeerConnection s)

/-- `handleOffer` (lines 202–222), the answering side: create the peer
connection, then start network monitoring (the answer signaling that follows
does not touch the monitor). -/
def handleOffer (s : ConferState) : ConferState :=
  startNetworkMonitoring (createPeerConnection s)

/-- `endCall` (lines 243–266): stop and discard the monitor when present,
then close and discard the peer connection. -/
def endCall (s : ConferState) : ConferState :=
  let s1 :=
    match s.networkMonitor with
    | some m =>
      { s with networkMonitor := none,
               live := s.live.filter (fun x => x.id != m.id),
               stopped := m.id :: s.stopped }
    | none => s
  { s1 with peerConnection := none }

/-- The lifecycle events that touch the monitor. -/
inductive ConferEvent where
  | startCall
  | recvOffer
  | endCall
  deriving DecidableEq

/-- One lifecycle step. -/
def confStep (s : ConferState) (e : ConferEvent) : ConferState :=
  match e with
  | ConferEvent.startCall => startCall s
  | ConferEvent.recvOffer => handleOffer s
  | ConferEvent.endCall => endCall s

/-- Run a sequence of lifecycle events from the constructor state. -/
def runConfer (es : List ConferEvent) : ConferState :=
  es.foldl confStep conferInit

/-- Lifecycle invariant: the held monitor is the only live one, is running,
was never stopped, and all serial numbers are below the counters. -/
def ConferInv (s : ConferState) : Prop :=
  (∀ m : MonitorInst, s.networkMonitor = some m →
      s.live = [m] ∧ m.id ∉ s.stopped ∧ m.running = true ∧ m.id < s.nextMonId) ∧
  (s.networkMonitor = none → s.live = []) ∧
  (∀ i ∈ s.stopped, i < s.nextMonId)

theorem conferInv_startNetworkMonitoring (s : ConferState) (h : ConferInv s) :
    ConferInv (startNetworkMonitoring s) := by
  unfold startNetworkMonitoring
  rcases hm : s.networkMonitor with _ | m
  · rcases hp : s.peerConnection with _ | pc
    · simpa using h
    · refine ⟨?_, ?_, ?_⟩
      · rintro m' hm'
        simp only [Option.some.injEq] at hm'
        subst hm'
        refine ⟨?_, ?_, rfl, ?_⟩
        · simp [h.2.1 hm]
        · intro hc
          exact absurd (h.2.2 _ hc) (lt_irrefl s.nextMonId)
        · simp
      · intro hc
        simp at hc
      · intro i hi
        exact Nat.lt_succ_of_lt (h.2.2 i hi)
  · simpa using h

theorem conferInv_createPeerConnection (s : ConferState) (h : ConferInv s) :
    ConferInv (createPeerConnection s) := by
  unfold createPeerConnection
  exact ⟨fun m hm => h.1 m hm, fun hm => h.2.1 hm, h.2.2⟩

theorem conferInv_endCall (s : ConferState) (h : ConferInv s) :
    ConferInv (endCall s) := by
  unfold endCall
  rcases hm : s.networkMonitor with _ | m
  · exact ⟨fun m hmm => absurd hmm (by rw [hm]; simp), fun _ => h.2.1 hm, h.2.2⟩
  · obtain ⟨hlive, hstop, hrun, hlt⟩ := h.1 m hm
    refine ⟨by simp, fun _ => ?_, ?_⟩
    · rw [hlive]
      simp [List.filter]
    · intro i hi
      simp only [List.mem_cons] at hi
      rcases hi with rfl | hi
      · exact hlt
      · exact h.2.2 i hi

theorem runConfer_inv_aux (es : List ConferEvent) :
    ∀ s : ConferState, ConferInv s → ConferInv (es.foldl confStep s) := by
  induction es with
  | nil => exact fun s hs => hs
  | cons e rest ih =>
    intro s hs
    rcases e with _ | _ | _
    · exact ih _ (conferInv_startNetworkMonitoring _
        (conferInv_createPeerConnection _ hs))
    · exact ih _ (conferInv_startNetworkMonitoring _
        (conferInv_createPeerConnection _ hs))
    · exact ih _ (conferInv_endCall _ hs)

theorem runConfer_inv (es : List ConferEvent) : ConferInv (runConfer es) :=
  runConfer_inv_aux es conferInit ⟨by simp [conferInit], fun _ => rfl, by simp [conferInit]⟩

/-- C9: over every event sequence, at most one monitor instance is live at a
time and the held instance was never stopped (no reuse after stop); from a
state with no monitor, both the calling side (`startCall`) and the answering
side (`handleOffer`) create and start a fresh monitor bound to the newly
created connection; and `endCall` discards the monitor, records its stop,
and discards the connection, so the next call constructs a new instance. -/
theorem lifecycle_controller_correct :
    (∀ es : List ConferEvent, (runConfer es).live.length ≤ 1) ∧
    (∀ es : List ConferEvent, ∀ m : MonitorInst,
        (runConfer es).networkMonitor = some m →
        m.running = true ∧ m.id ∉ (runConfer es).stopped) ∧
    (∀ s : ConferState, s.networkMonitor = none →
        (startCall s).networkMonitor
            = some { id := s.nextMonId, pcId := s.nextPcId, running := true } ∧
        (startCall s).peerConnection = some s.nextPcId ∧
        (handleOffer s).networkMonitor
            = some { id := s.nextMonId, pcId := s.nextPcId, running := true } ∧
        (handleOffer s).peerConnection = some s.nextPcId) ∧
    (∀ s : ConferState,
        (endCall s).networkMonitor = none ∧ (endCall s).peerConnection = none ∧
        ∀ m : MonitorInst, s.networkMonitor = some m →
          m.id ∈ (endCall s).stopped) := by
  refine ⟨?_, ?_, ?_, ?_⟩
  · intro es
    have h := runConfer_inv es
    rcases hm : (runConfer es).networkMonitor with _ | m
    · rw [h.2.1 hm]
      simp
    · rw [(h.1 m hm).1]
      simp
  · intro es m hm
    have h := runConfer_inv es
    exact ⟨(h.1 m hm).2.2.1, (h.1 m hm).2.1⟩
  · intro s hm
    have hstep :
        startNetworkMonitoring (createPeerConnection s)
          = { createPeerConnection s with
                networkMonitor :=
                  some { id := s.nextMonId, pcId := s.nextPcId, running := true },
                nextMonId := s.nextMonId + 1,
                live := { id := s.nextMonId, pcId := s.nextPcId, running := true }
                  :: s.live } := by
      unfold startNetworkMonitoring createPeerConnection
      rw [hm]
    exact ⟨by rw [startCall, hstep], by rw [startCall, hstep]; rfl,
      by rw [handleOffer, hstep], by rw [handleOffer, hstep]; rfl⟩
  · intro s
    refine ⟨?_, ?_, ?_⟩
    · unfold endCall
      rcases hm : s.networkMonitor with _ | m <;> simp [hm]
    · unfold endCall
      rcases hm : s.networkMonitor with _ | m <;> simp [hm]
    · intro m hm
      unfold endCall
      rw [hm]
      simp

/-- Witness for C9: the concrete two-call session start, end, start — the
second call's monitor is a fresh instance (id 1) distinct from the stopped
first instance (id 0). -/
theorem lifecycle_controller_correct_witness :
    (runConfer [ConferEvent.startCall, ConferEvent.endCall,
        ConferEvent.recvOffer]).live.length ≤ 1 ∧
    ({ id := 1, pcId := 1, running := true } : MonitorInst).running = true ∧
    ({ id := 1, pcId := 1, running := true } : MonitorInst).id
        ∉ (runConfer [ConferEvent.startCall, ConferEvent.endCall,
            ConferEvent.recvOffer]).stopped ∧
    (startCall conferInit).networkMonitor
        = some { id := 0, pcId := 0, running := true } ∧
    (endCall (startCall conferInit)).networkMonitor = none ∧
    ({ id := 0, pcId := 0, running := true } : MonitorInst).id
        ∈ (endCall (startCall conferInit)).stopped := by
  have h2 := lifecycle_controller_correct.2.1
    [ConferEvent.startCall, ConferEvent.endCall, ConferEvent.recvOffer]
    { id := 1, pcId := 1, running := true } (by decide)
  refine ⟨lifecycle_controller_correct.1
      [ConferEvent.startCall, ConferEvent.endCall, ConferEvent.recvOffer],
    h2.1, h2.2,
    (lifecycle_controller_correct.2.2.1 conferInit rfl).1,
    (lifecycle_controller_correct.2.2.2 (startCall conferInit)).1,
    (lifecycle_controller_correct.2.2.2 (startCall conferInit)).2.2
      { id := 0, pcId := 0, running := true } (by decide)⟩

/-!
Field sourcing of the extractor (claim C10): which reports feed which
derived field, and last-match-wins under `stats.forEach` iteration order.
-/

theorem analyzeStats_packet_loss (stats : List RTCReport) :
    (analyzeStats stats).packet_loss
      = round1 (stats.foldl stepReport ⟨0, 0, 0, 0, 0⟩).packetLoss := rfl

theorem analyzeStats_jitter (stats : List RTCReport) :
    (analyzeStats stats).jitter
      = round1 (stats.foldl stepReport ⟨0, 0, 0, 0, 0⟩).jitter := rfl

theorem analyzeStats_rtt (stats : List RTCReport) :
    (analyzeStats stats).rtt
      = jsRound (stats.foldl stepReport ⟨0, 0, 0, 0, 0⟩).rtt := rfl

theorem analyzeStats_bytes_received (stats : List RTCReport) :
    (analyzeStats stats).bytes_received
      = (stats.foldl stepReport ⟨0, 0, 0, 0, 0⟩).bytesReceived := rfl

theorem analyzeStats_bytes_sent (stats : List RTCReport) :
    (analyzeStats stats).bytes_sent
      = (stats.foldl stepReport ⟨0, 0, 0, 0, 0⟩).bytesSent := rfl

theorem stepInbound_skip (acc : Acc) (r : RTCReport)
    (h : ¬(r.type = "inbound-rtp" ∧ r.mediaType = some "video")) :
    stepInbound acc r = acc := by
  unfold stepInbound
  rw [if_neg h]

theorem stepOutbound_skip (acc : Acc) (r : RTCReport)
    (h : ¬(r.type = "outbound-rtp" ∧ r.mediaType = some "video")) :
    stepOutbound acc r = acc := by
  unfold stepOutbound
  rw [if_neg h]

theorem stepCandidatePair_skip (acc : Acc) (r : RTCReport)
    (h : ¬(r.type = "candidate-pair" ∧ r.state = some "succeeded")) :
    stepCandidatePair acc r = acc := by
  unfold stepCandidatePair
  rw [if_neg h]

theorem stepReport_skip (acc : Acc) (r : RTCReport)
    (h1 : ¬(r.type = "inbound-rtp" ∧ r.mediaType = some "video"))
    (h2 : ¬(r.type = "outbound-rtp" ∧ r.mediaType = some "video"))
    (h3 : ¬(r.type = "candidate-pair" ∧ r.state = some "succeeded")) :
    stepReport acc r = acc := by
  rw [stepReport, stepInbound_skip acc r h1, stepOutbound_skip acc r h2,
    stepCandidatePair_skip acc r h3]

/-- C10: packet loss, jitter and bytesReceived come only from inbound-rtp
video reports, bytesSent only from outbound-rtp video reports, and RTT only
from succeeded candidate pairs: a snapshot of audio-only RTP reports yields
0 for loss, jitter and both byte counters; a report matching none of the
three selectors never changes the result; and appending a matching report
makes it determine the fields it supplies, whatever earlier reports said
(last match wins in iteration order). -/
theorem extractor_field_sources :
    (∀ stats : List RTCReport,
        (∀ r ∈ stats, (r.type = "inbound-rtp" ∨ r.type = "outbound-rtp") ∧
            r.mediaType = some "audio") →
        (analyzeStats stats).packet_loss = 0 ∧
        (analyzeStats stats).jitter = 0 ∧
        (analyzeStats stats).bytes_received = 0 ∧
        (analyzeStats stats).bytes_sent = 0) ∧
    (∀ stats : List RTCReport, ∀ r : RTCReport,
        ¬(r.type = "inbound-rtp" ∧ r.mediaType = some "video") →
        ¬(r.type = "outbound-rtp" ∧ r.mediaType = some "video") →
        ¬(r.type = "candidate-pair" ∧ r.state = some "succeeded") →
        analyzeStats (stats ++ [r]) = analyzeStats stats) ∧
    (∀ stats : List RTCReport, ∀ l rv : ℕ, ∀ j : ℚ, ∀ b : ℕ,
        0 < rv + l →
        (analyzeStats (stats ++
            [{ type := "inbound-rtp", mediaType := some "video",
               packetsLost := some l, packetsReceived := some rv,
               jitter := some j, bytesReceived := some b }])).packet_loss
            = round1 (((l : ℚ) / ((rv : ℚ) + (l : ℚ))) * 100) ∧
        (analyzeStats (stats ++
            [{ type := "inbound-rtp", mediaType := some "video",
               packetsLost := some l, packetsReceived := some rv,
               jitter := some j, bytesReceived := some b }])).jitter
            = round1 (j * 1000) ∧
        (analyzeStats (stats ++
            [{ type := "inbound-rtp", mediaType := some "video",
               packetsLost := some l, packetsReceived := some rv,
               jitter := some j, bytesReceived := some b }])).bytes_received
            = b) ∧
    (∀ stats : List RTCReport, ∀ b : ℕ,
        (analyzeStats (stats ++
            [{ type := "outbound-rtp", mediaType := some "video",
               bytesSent := some b }])).bytes_sent = b) ∧
    (∀ stats : List RTCReport, ∀ t : ℚ,
        (analyzeStats (stats ++
            [{ type := "candidate-pair", state := some "succeeded",
               currentRoundTripTime := some t }])).rtt
          = jsRound (t * 1000)) := by
  refine ⟨?_, ?_, ?_, ?_, ?_⟩
  · intro stats h
    have hv : ∀ r ∈ stats, r.type = "inbound-rtp" → r.mediaType = some "video" → False := by
      intro r hr ht hv
      have h1 := (h r hr).2
      rw [hv] at h1
      exact absurd h1 (by simp)
    have ho : ∀ r ∈ stats, r.type = "outbound-rtp" → r.mediaType = some "video" → False := by
      intro r hr ht hv
      have h1 := (h r hr).2
      rw [hv] at h1
      exact absurd h1 (by simp)
    refine ⟨?_, ?_, ?_, ?_⟩
    · rw [analyzeStats_packet_loss,
        foldl_packetLoss_absent stats (fun r hr ht hm => (hv r hr ht hm).elim)]
      exact round1_zero
    · rw [analyzeStats_jitter,
        foldl_jitter_absent stats (fun r hr ht hm => absurd (hv r hr ht hm) id)]
      exact round1_zero
    · rw [analyzeStats_bytes_received,
        foldl_bytesReceived_absent stats (fun r hr ht hm => absurd (hv r hr ht hm) id)]
    · rw [analyzeStats_bytes_sent,
        foldl_bytesSent_absent stats (fun r hr ht hm => absurd (ho r hr ht hm) id)]
  · intro stats r h1 h2 h3
    unfold analyzeStats
    rw [List.foldl_append]
    simp only [List.foldl_cons, List.foldl_nil]
    rw [stepReport_skip _ r h1 h2 h3]
  · intro stats l rv j b h
    refine ⟨?_, ?_, ?_⟩
    · rw [analyzeStats_packet_loss, List.foldl_append]
      simp only [List.foldl_cons, List.foldl_nil]
      rw [stepReport_packetLoss, if_pos ⟨rfl, rfl⟩]
      simp only
      rw [if_pos h]
    · rw [analyzeStats_jitter, List.foldl_append]
      simp only [List.foldl_cons, List.foldl_nil]
      rw [stepReport_jitter, if_pos ⟨rfl, rfl⟩]
    · rw [analyzeStats_bytes_received, List.foldl_append]
      simp only [List.foldl_cons, List.foldl_nil]
      rw [stepReport_bytesReceived, if_pos ⟨rfl, rfl⟩]
  · intro stats b
    rw [analyzeStats_bytes_sent, List.foldl_append]
    simp only [List.foldl_cons, List.foldl_nil]
    rw [stepReport_bytesSent, if_pos ⟨rfl, rfl⟩]
  · intro stats t
    rw [analyzeStats_rtt, List.foldl_append]
    simp only [List.foldl_cons, List.foldl_nil]
    rw [stepReport_rtt, if_pos ⟨rfl, rfl⟩]

/-- Witness for C10: an audio-only snapshot yields zero loss, and appended
concrete matching and non-matching reports behave as the theorem states. -/
def audioOnlyReport : RTCReport :=
  { type := "inbound-rtp", mediaType := some "audio", packetsLost := some 3,
    packetsReceived := some 7, jitter := some 1, bytesReceived := some 5 }

def inboundVideoA : RTCReport :=
  { type := "inbound-rtp", mediaType := some "video", packetsLost := some 1,
    packetsReceived := some 1 }

def inboundVideoB : RTCReport :=
  { type := "inbound-rtp", mediaType := some "video", packetsLost := some 9,
    packetsReceived := some 1 }

def inboundVideoC : RTCReport :=
  { type := "inbound-rtp", mediaType := some "video", packetsLost := some 1,
    packetsReceived := some 3, jitter := some 2, bytesReceived := some 4 }

def outboundVideoA : RTCReport :=
  { type := "outbound-rtp", mediaType := some "video", bytesSent := some 10 }

def outboundVideoB : RTCReport :=
  { type := "outbound-rtp", mediaType := some "video", bytesSent := some 20 }

def candidatePairA : RTCReport :=
  { type := "candidate-pair", state := some "succeeded",
    currentRoundTripTime := some 1 }

def candidatePairB : RTCReport :=
  { type := "candidate-pair", state := some "succeeded",
    currentRoundTripTime := some 2 }

theorem extractor_field_sources_witness :
    (analyzeStats [audioOnlyReport]).packet_loss = 0 ∧
    analyzeStats ([inboundVideoA] ++ [{ type := "peer-connection" }])
      = analyzeStats [inboundVideoA] ∧
    (analyzeStats ([inboundVideoB] ++ [inboundVideoC])).packet_loss
      = round1 (((1 : ℚ) / ((3 : ℚ) + (1 : ℚ))) * 100) ∧
    (analyzeStats ([outboundVideoA] ++ [outboundVideoB])).bytes_sent = 20 ∧
    (analyzeStats ([candidatePairA] ++ [candidatePairB])).rtt = jsRound (2 * 1000) :=
  ⟨(extractor_field_sources.1 _ (by simp [audioOnlyReport])).1,
   extractor_field_sources.2.1 _ _ (by simp) (by simp) (by simp),
   (extractor_field_sources.2.2.1 _ 1 3 2 4 (by norm_num)).1,
   extractor_field_sources.2.2.2.1 _ 20,
   extractor_field_sources.2.2.2.2 _ 2⟩

end PSGIQ
